import Mathlib

/-!
Verification of the two-player combat game engine (`game_engine.py`).

The Python source is embedded shallowly:

* `PlayerState` models one entry of `GameEngine.game_state` (all ten keys
  present from `__init__`; the merge never removes a key, so they stay
  present for the engine's lifetime).
* `update_internal_game_state` models `GameEngine.update_internal_game_state`
  (a per-field shallow `dict.update`, represented with `Option` fields for
  presence/absence).
* `dispatch`, `rainDamage`, `absorb`, `applyHp`, `resolvePair`, and
  `perform_action` model `GameEngine.perform_action` (lines 139-214).
  `perform_action` returns `Option` because a `player_id` outside `{1, 2}`
  makes the Python raise `KeyError` on `self.game_state[player_key]`.
* `process_message` models the routing in `GameEngine.process_message`
  (lines 216-267), with outbound publications collected in a list.

Machine integers are modelled as `Int`: Python integers are unbounded and the
merge accepts arbitrary (even negative) values for every numeric field.
-/

namespace GameEngine

/-- One player's entry of `game_state` (`game_engine.py` lines 84-107). -/
structure PlayerState where
  hp : Int
  bullets : Int
  bombs : Int
  shield_hp : Int
  deaths : Int
  shields : Int
  opponent_visible : Bool
  opponent_in_rain_bomb : Int
  disconnected : Bool
  login : Bool
  deriving Repr, DecidableEq

/-- Initial player state from `GameEngine.__init__`. -/
def PlayerState.initial : PlayerState :=
  { hp := 100, bullets := 6, bombs := 2, shield_hp := 0, deaths := 0,
    shields := 3, opponent_visible := false, opponent_in_rain_bomb := 0,
    disconnected := false, login := false }

/-- The whole `game_state` dict: exactly the keys `p1` and `p2`. -/
structure GameState where
  p1 : PlayerState
  p2 : PlayerState
  deriving Repr, DecidableEq

/-- Initial game state from `GameEngine.__init__`. -/
def GameState.initial : GameState :=
  { p1 := PlayerState.initial, p2 := PlayerState.initial }

/-- A partial per-player update: `none` means the attribute is absent from the
incoming JSON, `some v` means it is present with value `v`. -/
structure PlayerUpdate where
  hp : Option Int := none
  bullets : Option Int := none
  bombs : Option Int := none
  shield_hp : Option Int := none
  deaths : Option Int := none
  shields : Option Int := none
  opponent_visible : Option Bool := none
  opponent_in_rain_bomb : Option Int := none
  disconnected : Option Bool := none
  login : Option Bool := none
  deriving Repr, DecidableEq

/-- `self.game_state[player_key].update(...)`: attributes present in the
incoming mapping overwrite, absent ones are kept. -/
def PlayerState.applyUpdate (p : PlayerState) (u : PlayerUpdate) : PlayerState :=
  { hp := u.hp.getD p.hp,
    bullets := u.bullets.getD p.bullets,
    bombs := u.bombs.getD p.bombs,
    shield_hp := u.shield_hp.getD p.shield_hp,
    deaths := u.deaths.getD p.deaths,
    shields := u.shields.getD p.shields,
    opponent_visible := u.opponent_visible.getD p.opponent_visible,
    opponent_in_rain_bomb := u.opponent_in_rain_bomb.getD p.opponent_in_rain_bomb,
    disconnected := u.disconnected.getD p.disconnected,
    login := u.login.getD p.login }

/-- A partial incoming `game_state`: each player key may be absent. -/
structure GameStateUpdate where
  p1 : Option PlayerUpdate := none
  p2 : Option PlayerUpdate := none
  deriving Repr, DecidableEq

/-- `GameEngine.update_internal_game_state` (lines 133-137). -/
def update_internal_game_state (gs : GameState) (inc : GameStateUpdate) : GameState :=
  { p1 := match inc.p1 with
      | some u => gs.p1.applyUpdate u
      | none => gs.p1,
    p2 := match inc.p2 with
      | some u => gs.p2.applyUpdate u
      | none => gs.p2 }

/-- The action-type vocabulary handled by `perform_action` (lines 157-188). -/
def knownActionTypes : List String :=
  ["gun", "bomb", "reload", "shield", "logout", "basket", "volley", "soccer", "bowl"]

/-- The action-specific dispatch of `perform_action` (lines 156-188): returns
the mutated actor together with the base `damage_to_opponent`.
`opponent_visible` was read from the actor before the dispatch (line 148) and
the dispatch never writes it, so reading it from `p` is faithful. -/
def dispatch (p : PlayerState) (action_type : String) (hit : Bool) :
    PlayerState × Int :=
  if action_type = "gun" then
    if p.bullets > 0 then
      ({ p with bullets := p.bullets - 1 }, if hit then 5 else 0)
    else (p, 0)
  else if action_type = "bomb" then
    if p.bombs > 0 ∧ p.opponent_visible then
      ({ p with bombs := p.bombs - 1 }, 5)
    else (p, 0)
  else if action_type = "reload" then
    if p.bullets = 0 then ({ p with bullets := 6 }, 0) else (p, 0)
  else if action_type = "shield" then
    if p.shields > 0 ∧ p.shield_hp = 0 then
      ({ p with shields := p.shields - 1, shield_hp := 30 }, 0)
    else (p, 0)
  else if action_type = "logout" then
    ({ p with login := false }, 0)
  else if action_type = "basket" ∨ action_type = "volley" ∨
      action_type = "soccer" ∨ action_type = "bowl" then
    (p, if p.opponent_visible then 10 else 0)
  else (p, 0)

/-- The rain-bomb damage term (lines 189-191), computed from the actor's
pre-dispatch `opponent_in_rain_bomb` and `opponent_visible` (lines 148-149). -/
def rainDamage (p : PlayerState) : Int :=
  if p.opponent_in_rain_bomb > 0 ∧ p.opponent_visible then
    5 * p.opponent_in_rain_bomb
  else 0

/-- The final `damage_to_opponent` accumulated before absorption. -/
def totalDamage (p : PlayerState) (action_type : String) (hit : Bool) : Int :=
  (dispatch p action_type hit).2 + rainDamage p

/-- Shield absorption (lines 193-201): returns the mutated opponent and the
damage remaining after absorption. A non-positive `shield_hp` is reset to `0`
even when no damage is dealt. -/
def absorb (opp : PlayerState) (dmg : Int) : PlayerState × Int :=
  if opp.shield_hp > 0 then
    if dmg > 0 then
      let damage_to_shield := min dmg opp.shield_hp
      ({ opp with shield_hp := opp.shield_hp - damage_to_shield },
        dmg - damage_to_shield)
    else (opp, dmg)
  else ({ opp with shield_hp := 0 }, dmg)

/-- The respawn reset (lines 208-213). -/
def respawn (opp : PlayerState) : PlayerState :=
  { opp with
    hp := 100
    deaths := opp.deaths + 1
    shields := 3
    shield_hp := 0
    bullets := 6
    bombs := 2 }

/-- The opponent's `hp` after line 205 but before the respawn test: the value
the spec calls "hp afterwards (before any respawn reset)". -/
def hpBeforeRespawn (opp : PlayerState) (dmg : Int) : Int :=
  if dmg > 0 then opp.hp - dmg else opp.hp

/-- HP deduction and respawn (lines 203-214): damage is applied and the
respawn test runs only when positive damage remains after absorption. -/
def applyHp (opp : PlayerState) (dmg : Int) : PlayerState :=
  if dmg > 0 then
    let opp2 := { opp with hp := opp.hp - dmg }
    if opp2.hp ≤ 0 then respawn opp2 else opp2
  else opp

/-- The whole body of `perform_action` on the resolved (actor, opponent)
pair (lines 144-214). -/
def resolvePair (p opp : PlayerState) (action_type : String) (hit : Bool) :
    PlayerState × PlayerState :=
  let pd := dispatch p action_type hit
  let dmg := pd.2 + rainDamage p
  let ar := absorb opp dmg
  (pd.1, applyHp ar.1 ar.2)

/-- `GameEngine.perform_action` (lines 139-214). `player_key = f'p{player_id}'`
is `p1`/`p2` only for ids 1 and 2; any other id raises `KeyError` at
`self.game_state[player_key]`, modelled as `none`. -/
def perform_action (gs : GameState) (player_id : Int) (action_type : String)
    (hit : Bool) : Option GameState :=
  if player_id = 1 then
    let r := resolvePair gs.p1 gs.p2 action_type hit
    some { p1 := r.1, p2 := r.2 }
  else if player_id = 2 then
    let r := resolvePair gs.p2 gs.p1 action_type hit
    some { p1 := r.2, p2 := r.1 }
  else none

/-- The two outbound sinks of `process_message`. -/
inductive Sink where
  | evalServer
  | broadcast
  deriving Repr, DecidableEq

/-- One outbound publication: its sink and the payload fields. The Action
route publishes `{game_state, action, player_id}`; the SyncBroadcast route
publishes `{game_state}` only, so `player_id`/`action` are absent. -/
structure Publication where
  sink : Sink
  game_state : GameState
  player_id : Option Int
  action : Option String
  deriving Repr, DecidableEq

/-- An inbound event, after JSON decoding, with the fields `process_message`
reads (lines 222-226) and their `data.get` defaults. -/
structure InboundEvent where
  action : Bool := false
  update : Bool := false
  player_id : Int := 0
  action_type : String := ""
  hit : Bool := false
  game_state : GameStateUpdate := {}
  deriving Repr, DecidableEq

/-- `GameEngine.process_message` (lines 216-267): merge the partial state,
then route on the `action`/`update` flags. `none` models the `KeyError`
escaping from `perform_action` (the merge has already happened, but no
publication occurs). -/
def process_message (gs : GameState) (e : InboundEvent) :
    Option (GameState × List Publication) :=
  let gs1 := update_internal_game_state gs e.game_state
  if e.action then
    match perform_action gs1 e.player_id e.action_type e.hit with
    | some gs2 =>
        some (gs2,
          [{ sink := Sink.evalServer, game_state := gs2,
             player_id := some e.player_id, action := some e.action_type },
           { sink := Sink.broadcast, game_state := gs2,
             player_id := some e.player_id, action := some e.action_type }])
    | none => none
  else if e.update then
    some (gs1,
      [{ sink := Sink.broadcast, game_state := gs1,
         player_id := none, action := none }])
  else
    some (gs1, [])

end GameEngine

namespace GameEngine

/-! ### Helper lemmas about the embedded operations -/

/-- `absorb` touches only `shield_hp` of the opponent. -/
theorem absorb_fst_fields (opp : PlayerState) (d : Int) :
    (absorb opp d).1.hp = opp.hp ∧
    (absorb opp d).1.bullets = opp.bullets ∧
    (absorb opp d).1.bombs = opp.bombs ∧
    (absorb opp d).1.deaths = opp.deaths ∧
    (absorb opp d).1.shields = opp.shields ∧
    (absorb opp d).1.opponent_visible = opp.opponent_visible ∧
    (absorb opp d).1.opponent_in_rain_bomb = opp.opponent_in_rain_bomb ∧
    (absorb opp d).1.disconnected = opp.disconnected ∧
    (absorb opp d).1.login = opp.login := by
  unfold absorb
  split_ifs <;> simp

/-- The damage remaining after absorption, in closed form. -/
theorem absorb_snd (opp : PlayerState) (d : Int) :
    (absorb opp d).2 = if 0 < opp.shield_hp ∧ 0 < d then d - min d opp.shield_hp else d := by
  unfold absorb
  split_ifs with h1 h2 <;> simp_all

/-- The shield after absorption, in closed form. -/
theorem absorb_fst_shield (opp : PlayerState) (d : Int) :
    (absorb opp d).1.shield_hp =
      if 0 < opp.shield_hp then
        (if 0 < d then opp.shield_hp - min d opp.shield_hp else opp.shield_hp)
      else 0 := by
  unfold absorb
  split_ifs with h1 h2 <;> simp_all

/-- The action dispatch never deals negative base damage. -/
theorem dispatch_snd_nonneg (p : PlayerState) (a : String) (hit : Bool) :
    0 ≤ (dispatch p a hit).2 := by
  unfold dispatch
  split_ifs <;> simp

/-- Rain damage is never negative. -/
theorem rainDamage_nonneg (p : PlayerState) : 0 ≤ rainDamage p := by
  unfold rainDamage
  split_ifs with h
  · have := h.1; omega
  · omega

/-- The accumulated damage of a resolution is never negative. -/
theorem totalDamage_nonneg (p : PlayerState) (a : String) (hit : Bool) :
    0 ≤ totalDamage p a hit := by
  unfold totalDamage
  have h1 := dispatch_snd_nonneg p a hit
  have h2 := rainDamage_nonneg p
  omega

/-! ### C1: the shield-absorption law -/

/-- C1: in every action resolution where the opponent's `shield_hp` starts
out non-negative, the damage absorbed by the shield is
`min(pre_shield_hp, total_damage)`, the shield afterwards holds
`pre_shield_hp - absorbed`, and the opponent's hp before any respawn reset
is `pre_hp - (total_damage - absorbed)`. -/
theorem shield_absorption_law (p opp : PlayerState) (a : String) (hit : Bool)
    (hs : 0 ≤ opp.shield_hp) :
    totalDamage p a hit - (absorb opp (totalDamage p a hit)).2
        = min opp.shield_hp (totalDamage p a hit) ∧
    (absorb opp (totalDamage p a hit)).1.shield_hp
        = opp.shield_hp - min opp.shield_hp (totalDamage p a hit) ∧
    hpBeforeRespawn (absorb opp (totalDamage p a hit)).1
        (absorb opp (totalDamage p a hit)).2
      = opp.hp - (totalDamage p a hit - min opp.shield_hp (totalDamage p a hit)) := by
  have htd := totalDamage_nonneg p a hit
  have hhp := (absorb_fst_fields opp (totalDamage p a hit)).1
  have hsnd := absorb_snd opp (totalDamage p a hit)
  have hshield := absorb_fst_shield opp (totalDamage p a hit)
  refine ⟨?_, ?_, ?_⟩
  · rw [hsnd]; split_ifs with h <;> omega
  · rw [hshield]; split_ifs with h1 h2 <;> omega
  · unfold hpBeforeRespawn
    rw [hhp, hsnd]
    split_ifs <;> omega

/-- Witness for C1 at a concrete input: player 1 fires a hitting gun shot
while the opponent holds a 3-point shield. -/
theorem shield_absorption_law_witness :
    (0 : Int) ≤ ({ PlayerState.initial with shield_hp := 3 } : PlayerState).shield_hp ∧
    (totalDamage PlayerState.initial "gun" true
        - (absorb { PlayerState.initial with shield_hp := 3 }
            (totalDamage PlayerState.initial "gun" true)).2
        = min ({ PlayerState.initial with shield_hp := 3 } : PlayerState).shield_hp
            (totalDamage PlayerState.initial "gun" true) ∧
      (absorb { PlayerState.initial with shield_hp := 3 }
          (totalDamage PlayerState.initial "gun" true)).1.shield_hp
        = ({ PlayerState.initial with shield_hp := 3 } : PlayerState).shield_hp
            - min ({ PlayerState.initial with shield_hp := 3 } : PlayerState).shield_hp
              (totalDamage PlayerState.initial "gun" true) ∧
      hpBeforeRespawn (absorb { PlayerState.initial with shield_hp := 3 }
            (totalDamage PlayerState.initial "gun" true)).1
          (absorb { PlayerState.initial with shield_hp := 3 }
            (totalDamage PlayerState.initial "gun" true)).2
        = ({ PlayerState.initial with shield_hp := 3 } : PlayerState).hp
            - (totalDamage PlayerState.initial "gun" true
              - min ({ PlayerState.initial with shield_hp := 3 } : PlayerState).shield_hp
                (totalDamage PlayerState.initial "gun" true))) :=
  ⟨by decide,
    shield_absorption_law PlayerState.initial
      { PlayerState.initial with shield_hp := 3 } "gun" true (by decide)⟩

end GameEngine

namespace GameEngine

/-- `absorb` returns the opponent with only `shield_hp` rewritten. -/
theorem absorb_fst_eq (opp : PlayerState) (d : Int) :
    (absorb opp d).1 = { opp with shield_hp := (absorb opp d).1.shield_hp } := by
  unfold absorb
  split_ifs <;> rfl

/-- `applyHp` with the intermediate binding flattened. -/
theorem applyHp_eq (opp : PlayerState) (d : Int) :
    applyHp opp d =
      if 0 < d then
        (if opp.hp - d ≤ 0 then respawn { opp with hp := opp.hp - d }
          else { opp with hp := opp.hp - d })
      else opp := rfl

/-! ### C2: respawn resets exactly the resource fields -/

/-- C2: whenever an action resolution drops the opponent's hp to or below
zero, the opponent afterwards is exactly the respawn state: hp 100, deaths
incremented, shields 3, shield_hp 0, bullets 6, bombs 2, with the
visibility, rain-bomb, disconnect and login attributes untouched. -/
theorem respawn_resets_exactly (p opp : PlayerState) (a : String) (hit : Bool)
    (hpos : 0 < (absorb opp (totalDamage p a hit)).2)
    (hdrop : opp.hp - (absorb opp (totalDamage p a hit)).2 ≤ 0) :
    (resolvePair p opp a hit).2 =
      { hp := 100, bullets := 6, bombs := 2, shield_hp := 0,
        deaths := opp.deaths + 1, shields := 3,
        opponent_visible := opp.opponent_visible,
        opponent_in_rain_bomb := opp.opponent_in_rain_bomb,
        disconnected := opp.disconnected, login := opp.login } := by
  have hfst := absorb_fst_eq opp (totalDamage p a hit)
  show applyHp (absorb opp (totalDamage p a hit)).1
      (absorb opp (totalDamage p a hit)).2 = _
  rw [hfst, applyHp_eq, if_pos hpos, if_pos (show _ ≤ (0 : Int) by simpa using hdrop)]
  rfl

/-- Witness for C2: player 1 lands a basket strike on a visible opponent at
5 hp; the opponent respawns. -/
theorem respawn_resets_exactly_witness :
    0 < (absorb { PlayerState.initial with hp := 5 }
        (totalDamage { PlayerState.initial with opponent_visible := true }
          "basket" false)).2 ∧
    ({ PlayerState.initial with hp := 5 } : PlayerState).hp
        - (absorb { PlayerState.initial with hp := 5 }
            (totalDamage { PlayerState.initial with opponent_visible := true }
              "basket" false)).2 ≤ 0 ∧
    (resolvePair { PlayerState.initial with opponent_visible := true }
        { PlayerState.initial with hp := 5 } "basket" false).2 =
      { hp := 100, bullets := 6, bombs := 2, shield_hp := 0,
        deaths := ({ PlayerState.initial with hp := 5 } : PlayerState).deaths + 1,
        shields := 3,
        opponent_visible :=
          ({ PlayerState.initial with hp := 5 } : PlayerState).opponent_visible,
        opponent_in_rain_bomb :=
          ({ PlayerState.initial with hp := 5 } : PlayerState).opponent_in_rain_bomb,
        disconnected :=
          ({ PlayerState.initial with hp := 5 } : PlayerState).disconnected,
        login := ({ PlayerState.initial with hp := 5 } : PlayerState).login } :=
  ⟨by decide, by decide,
    respawn_resets_exactly { PlayerState.initial with opponent_visible := true }
      { PlayerState.initial with hp := 5 } "basket" false (by decide) (by decide)⟩

end GameEngine

namespace GameEngine

/-! ### C8: hp positivity across a resolution -/

/-- C8 (amended): if the opponent's hp is positive before the resolution it
is positive afterwards, and whenever the respawn branch runs (positive
residual damage drives hp to or below zero) the post-respawn hp is exactly
100, however far below zero the hp went. -/
theorem hp_positive_after_resolution (p opp : PlayerState) (a : String) (hit : Bool) :
    (0 < opp.hp → 0 < (resolvePair p opp a hit).2.hp) ∧
    (0 < (absorb opp (totalDamage p a hit)).2 →
      opp.hp - (absorb opp (totalDamage p a hit)).2 ≤ 0 →
      (resolvePair p opp a hit).2.hp = 100) := by
  have hfst := absorb_fst_eq opp (totalDamage p a hit)
  have hres : (resolvePair p opp a hit).2
      = applyHp (absorb opp (totalDamage p a hit)).1
          (absorb opp (totalDamage p a hit)).2 := rfl
  rw [hres, hfst, applyHp_eq]
  constructor
  · intro hhp
    split_ifs with hd hle
    · simp [respawn]
    · simp only at hle ⊢
      omega
    · simpa using hhp
  · intro hd hle
    rw [if_pos hd, if_pos (show _ ≤ (0 : Int) by simpa using hle)]
    simp [respawn]

/-- Witness for C8: a hitting gun shot against an unshielded opponent at
full health leaves the opponent at positive hp, and a basket strike that
drops a 5-hp opponent below zero respawns them at exactly 100. -/
theorem hp_positive_after_resolution_witness :
    ((0 : Int) < PlayerState.initial.hp ∧
      0 < (resolvePair PlayerState.initial PlayerState.initial "gun" true).2.hp) ∧
    (0 < (absorb { PlayerState.initial with hp := 5 }
        (totalDamage { PlayerState.initial with opponent_visible := true }
          "basket" false)).2 ∧
      ({ PlayerState.initial with hp := 5 } : PlayerState).hp
          - (absorb { PlayerState.initial with hp := 5 }
              (totalDamage { PlayerState.initial with opponent_visible := true }
                "basket" false)).2 ≤ 0 ∧
      (resolvePair { PlayerState.initial with opponent_visible := true }
          { PlayerState.initial with hp := 5 } "basket" false).2.hp = 100) :=
  ⟨⟨by decide,
      (hp_positive_after_resolution PlayerState.initial PlayerState.initial
        "gun" true).1 (by decide)⟩,
    ⟨by decide, by decide,
      (hp_positive_after_resolution
          { PlayerState.initial with opponent_visible := true }
          { PlayerState.initial with hp := 5 } "basket" false).2
        (by decide) (by decide)⟩⟩

/-- Counterexample for C8 as stated: a merge may have left the opponent at
hp 0; a zero-damage resolution (a failed reload with full bullets) runs the
whole resolver yet leaves the opponent's hp non-positive. -/
theorem hp_positive_after_resolution_counterexample :
    ¬ 0 < (resolvePair PlayerState.initial
        { PlayerState.initial with hp := 0 } "reload" false).2.hp := by
  decide

/-! ### C10: the opponent's shield never ends negative -/

/-- Core invariant on the resolver body: the opponent's shield is
non-negative after every resolution, and a shield that started out
non-positive is reset to exactly 0 (even with zero total damage). -/
theorem resolvePair_shield_nonneg (p opp : PlayerState) (a : String) (hit : Bool) :
    0 ≤ (resolvePair p opp a hit).2.shield_hp ∧
    (opp.shield_hp ≤ 0 → (resolvePair p opp a hit).2.shield_hp = 0) := by
  have hshield := absorb_fst_shield opp (totalDamage p a hit)
  have hfst := absorb_fst_eq opp (totalDamage p a hit)
  have hres : (resolvePair p opp a hit).2
      = applyHp (absorb opp (totalDamage p a hit)).1
          (absorb opp (totalDamage p a hit)).2 := rfl
  rw [hres, hfst, applyHp_eq]
  split_ifs with hd hle
  · constructor
    · simp [respawn]
    · intro _; simp [respawn]
  · simp only
    constructor
    · rw [hshield]
      split_ifs with h1 h2 <;> omega
    · intro h
      rw [hshield]
      split_ifs with h1 h2 <;> omega
  · simp only
    constructor
    · rw [hshield]
      split_ifs with h1 h2 <;> omega
    · intro h
      rw [hshield]
      split_ifs with h1 h2 <;> omega

/-- C10: after every resolution for a valid player id (1 or 2), the
opponent's `shield_hp` is non-negative; a shield that was non-positive
beforehand is set to exactly 0 even when total damage is zero, and
absorption never drives a positive shield below 0. -/
theorem opponent_shield_nonneg (gs : GameState) (pid : Int) (a : String)
    (hit : Bool) (gs' : GameState)
    (h : perform_action gs pid a hit = some gs') :
    (pid = 1 → 0 ≤ gs'.p2.shield_hp ∧ (gs.p2.shield_hp ≤ 0 → gs'.p2.shield_hp = 0)) ∧
    (pid = 2 → 0 ≤ gs'.p1.shield_hp ∧ (gs.p1.shield_hp ≤ 0 → gs'.p1.shield_hp = 0)) := by
  unfold perform_action at h
  split_ifs at h with h1 h2
  · simp only [Option.some.injEq] at h
    subst h
    subst h1
    refine ⟨fun _ => ?_, fun hh => absurd hh (by norm_num)⟩
    exact resolvePair_shield_nonneg gs.p1 gs.p2 a hit
  · simp only [Option.some.injEq] at h
    subst h
    subst h2
    refine ⟨fun hh => absurd hh (by norm_num), fun _ => ?_⟩
    exact resolvePair_shield_nonneg gs.p2 gs.p1 a hit

/-- Witness for C10: player 1 reloads (a no-op with full bullets) while the
opponent's shield had been merged to -4; the resolution resets it to 0. -/
theorem opponent_shield_nonneg_witness :
    0 ≤ ({ p1 := PlayerState.initial, p2 := { PlayerState.initial with shield_hp := 0 } } : GameState).p2.shield_hp ∧
    ({ p1 := PlayerState.initial, p2 := { PlayerState.initial with shield_hp := 0 } } : GameState).p2.shield_hp = 0 := by
  have h := opponent_shield_nonneg
    { p1 := PlayerState.initial, p2 := { PlayerState.initial with shield_hp := -4 } }
    1 "reload" false
    { p1 := PlayerState.initial, p2 := { PlayerState.initial with shield_hp := 0 } }
    (by decide)
  exact ⟨(h.1 rfl).1, (h.1 rfl).2 (by decide)⟩

end GameEngine

namespace GameEngine

/-- Shared helper: the resolver succeeds on the two valid player slots. -/
theorem perform_action_some (gs : GameState) (pid : Int) (a : String)
    (hit : Bool) (h : pid = 1 ∨ pid = 2) :
    ∃ gs', perform_action gs pid a hit = some gs' := by
  rcases h with rfl | rfl
  · exact ⟨_, rfl⟩
  · unfold perform_action
    simp

end GameEngine

namespace GameEngine

/-- `resolvePair` with its intermediate bindings flattened. -/
theorem resolvePair_eq (p opp : PlayerState) (a : String) (hit : Bool) :
    resolvePair p opp a hit =
      ((dispatch p a hit).1,
        applyHp (absorb opp ((dispatch p a hit).2 + rainDamage p)).1
          (absorb opp ((dispatch p a hit).2 + rainDamage p)).2) := rfl

/-! ### C4: rain damage accumulates on every resolved action -/

/-- C4: when the actor's rain-bomb counter is positive and the actor
perceives the opponent visible, `5 × counter` is added on top of the
action-specific damage for every action; in particular a reload with zero
bullets both refills the actor to 6 bullets and deals the rain damage
(shown on the opponent's hp when no shield interferes). -/
theorem rain_damage_always_added (p opp : PlayerState) (a : String) (hit : Bool)
    (hr : 0 < p.opponent_in_rain_bomb) (hv : p.opponent_visible = true) :
    totalDamage p a hit = (dispatch p a hit).2 + 5 * p.opponent_in_rain_bomb ∧
    (a = "reload" → p.bullets = 0 →
      ((resolvePair p opp a hit).1.bullets = 6 ∧
        totalDamage p a hit = 5 * p.opponent_in_rain_bomb ∧
        (opp.shield_hp = 0 → 5 * p.opponent_in_rain_bomb < opp.hp →
          (resolvePair p opp a hit).2.hp = opp.hp - 5 * p.opponent_in_rain_bomb))) := by
  have hrain : rainDamage p = 5 * p.opponent_in_rain_bomb := by
    unfold rainDamage
    rw [if_pos ⟨hr, hv⟩]
  constructor
  · unfold totalDamage
    rw [hrain]
  · rintro rfl hb
    have hdisp : dispatch p "reload" hit = ({ p with bullets := 6 }, 0) := by
      unfold dispatch
      simp [hb]
    refine ⟨?_, ?_, ?_⟩
    · rw [resolvePair_eq, hdisp]
    · unfold totalDamage
      rw [hdisp, hrain]
      simp
    · intro hs hlt
      have h5 : (0 : Int) < 5 * p.opponent_in_rain_bomb := by omega
      have habs : absorb opp (5 * p.opponent_in_rain_bomb)
          = ({ opp with shield_hp := 0 }, 5 * p.opponent_in_rain_bomb) := by
        unfold absorb
        rw [if_neg (by omega)]
      have hsnd : (resolvePair p opp "reload" hit).2
          = applyHp { opp with shield_hp := 0 } (5 * p.opponent_in_rain_bomb) := by
        rw [resolvePair_eq, hdisp, hrain]
        simp [habs]
      rw [hsnd, applyHp_eq, if_pos h5,
        if_neg (show ¬({ opp with shield_hp := 0 } : PlayerState).hp
            - 5 * p.opponent_in_rain_bomb ≤ 0 by
          show ¬opp.hp - 5 * p.opponent_in_rain_bomb ≤ 0
          omega)]

/-- Concrete actor for the C4 witness: standing in two rain bombs with the
opponent visible and no bullets left. -/
def rainReloader : PlayerState :=
  { PlayerState.initial with opponent_visible := true, opponent_in_rain_bomb := 2, bullets := 0 }

/-- Witness for C4: the actor stands in two rain bombs, sees the opponent,
and reloads from zero bullets; the opponent drops from 100 to 90 hp. -/
theorem rain_damage_always_added_witness :
    (0 : Int) < rainReloader.opponent_in_rain_bomb ∧
    rainReloader.opponent_visible = true ∧
    (resolvePair rainReloader PlayerState.initial "reload" false).1.bullets = 6 ∧
    totalDamage rainReloader "reload" false
      = 5 * rainReloader.opponent_in_rain_bomb ∧
    (resolvePair rainReloader PlayerState.initial "reload" false).2.hp
      = PlayerState.initial.hp - 5 * rainReloader.opponent_in_rain_bomb := by
  have h := rain_damage_always_added rainReloader
    PlayerState.initial "reload" false (by decide) (by decide)
  have h2 := h.2 rfl (by decide)
  exact ⟨by decide, by decide, h2.1, h2.2.1, h2.2.2 (by decide) (by decide)⟩

/-! ### C5: totality of the action resolver -/

/-- C5 (amended): the resolver returns normally for every action type and
auxiliary data whenever the player id is one of the two valid slots 1 and 2;
an id outside that set raises `KeyError` instead. -/
theorem perform_action_total_on_valid_ids (gs : GameState) (pid : Int)
    (a : String) (hit : Bool) (h : pid = 1 ∨ pid = 2) :
    ∃ gs', perform_action gs pid a hit = some gs' :=
  perform_action_some gs pid a hit h

/-- Witness for C5 (amended) at a concrete input: player 2 fires a gun. -/
theorem perform_action_total_on_valid_ids_witness :
    ((2 : Int) = 1 ∨ (2 : Int) = 2) ∧
    ∃ gs', perform_action GameState.initial 2 "gun" true = some gs' :=
  ⟨Or.inr rfl,
    perform_action_total_on_valid_ids GameState.initial 2 "gun" true (Or.inr rfl)⟩

/-- Counterexample for C5 as stated: with player id 3 the Python indexes
`self.game_state['p3']` and raises `KeyError`; resolution does not return
normally. -/
theorem perform_action_total_counterexample :
    perform_action GameState.initial 3 "gun" true = none := by
  decide

/-! ### C6: unrecognized action types -/

/-- C6 (amended): an action type outside the fixed vocabulary contributes
base damage 0 and leaves the actor untouched by the dispatch, and the
resolution returns normally for valid player ids; rain damage and the
shield normalization of the opponent still run afterwards. -/
theorem unknown_action_dispatch_noop (p : PlayerState) (a : String) (hit : Bool)
    (h : a ∉ knownActionTypes) :
    dispatch p a hit = (p, 0) ∧
    (∀ gs : GameState, ∀ pid : Int, pid = 1 ∨ pid = 2 →
      (perform_action gs pid a hit).isSome = true) := by
  simp only [knownActionTypes, List.mem_cons, List.not_mem_nil, or_false] at h
  push_neg at h
  obtain ⟨hg, hb, hr, hs, hl, hba, hv, hso, hbo⟩ := h
  constructor
  · unfold dispatch
    rw [if_neg hg, if_neg hb, if_neg hr, if_neg hs, if_neg hl,
      if_neg (by simp [hba, hv, hso, hbo])]
  · intro gs pid hpid
    rcases hpid with rfl | rfl
    · rfl
    · unfold perform_action
      norm_num

/-- Witness for C6 (amended): the unrecognized action type "dance". -/
theorem unknown_action_dispatch_noop_witness :
    "dance" ∉ knownActionTypes ∧
    dispatch PlayerState.initial "dance" true = (PlayerState.initial, 0) ∧
    (perform_action GameState.initial 1 "dance" true).isSome = true := by
  have h := unknown_action_dispatch_noop PlayerState.initial "dance" true (by decide)
  exact ⟨by decide, h.1, h.2 GameState.initial 1 (Or.inl rfl)⟩

/-- Counterexample for C6 as stated: the unrecognized action "dance",
performed while the actor stands in one rain bomb with the opponent
visible, is not a state-preserving no-op — the opponent loses 5 hp. -/
theorem unknown_action_counterexample :
    "dance" ∉ knownActionTypes ∧
    (resolvePair { PlayerState.initial with opponent_visible := true, opponent_in_rain_bomb := 1 }
      PlayerState.initial "dance" false).2.hp = 95 ∧
    PlayerState.initial.hp = 100 := by
  decide

end GameEngine

namespace GameEngine

/-! ### C7: the merge overwrites exactly the attributes present -/

/-- The StateMerger contract of the spec, per attribute: an attribute present
in the incoming data overwrites, an absent one retains its previous value. -/
def MergesPerContract (old : PlayerState) (u : PlayerUpdate) (merged : PlayerState) : Prop :=
  (u.hp = none → merged.hp = old.hp) ∧
  (∀ v, u.hp = some v → merged.hp = v) ∧
  (u.bullets = none → merged.bullets = old.bullets) ∧
  (∀ v, u.bullets = some v → merged.bullets = v) ∧
  (u.bombs = none → merged.bombs = old.bombs) ∧
  (∀ v, u.bombs = some v → merged.bombs = v) ∧
  (u.shield_hp = none → merged.shield_hp = old.shield_hp) ∧
  (∀ v, u.shield_hp = some v → merged.shield_hp = v) ∧
  (u.deaths = none → merged.deaths = old.deaths) ∧
  (∀ v, u.deaths = some v → merged.deaths = v) ∧
  (u.shields = none → merged.shields = old.shields) ∧
  (∀ v, u.shields = some v → merged.shields = v) ∧
  (u.opponent_visible = none → merged.opponent_visible = old.opponent_visible) ∧
  (∀ v, u.opponent_visible = some v → merged.opponent_visible = v) ∧
  (u.opponent_in_rain_bomb = none → merged.opponent_in_rain_bomb = old.opponent_in_rain_bomb) ∧
  (∀ v, u.opponent_in_rain_bomb = some v → merged.opponent_in_rain_bomb = v) ∧
  (u.disconnected = none → merged.disconnected = old.disconnected) ∧
  (∀ v, u.disconnected = some v → merged.disconnected = v) ∧
  (u.login = none → merged.login = old.login) ∧
  (∀ v, u.login = some v → merged.login = v)

/-- `dict.update` on one player satisfies the per-attribute contract. -/
theorem applyUpdate_merges (p : PlayerState) (u : PlayerUpdate) :
    MergesPerContract p u (p.applyUpdate u) := by
  unfold MergesPerContract PlayerState.applyUpdate
  refine ⟨fun h => by rw [h]; rfl, fun v h => by rw [h]; rfl,
    fun h => by rw [h]; rfl, fun v h => by rw [h]; rfl,
    fun h => by rw [h]; rfl, fun v h => by rw [h]; rfl,
    fun h => by rw [h]; rfl, fun v h => by rw [h]; rfl,
    fun h => by rw [h]; rfl, fun v h => by rw [h]; rfl,
    fun h => by rw [h]; rfl, fun v h => by rw [h]; rfl,
    fun h => by rw [h]; rfl, fun v h => by rw [h]; rfl,
    fun h => by rw [h]; rfl, fun v h => by rw [h]; rfl,
    fun h => by rw [h]; rfl, fun v h => by rw [h]; rfl,
    fun h => by rw [h]; rfl, fun v h => by rw [h]; rfl⟩

/-- C7: the merge is a per-field shallow merge, not a replacement: a player
key absent from the incoming data is left untouched, and for a present
player key exactly the attributes present overwrite while absent attributes
retain their previous value. -/
theorem merge_overwrites_exactly (gs : GameState) (inc : GameStateUpdate) :
    (inc.p1 = none → (update_internal_game_state gs inc).p1 = gs.p1) ∧
    (∀ u, inc.p1 = some u →
      MergesPerContract gs.p1 u (update_internal_game_state gs inc).p1) ∧
    (inc.p2 = none → (update_internal_game_state gs inc).p2 = gs.p2) ∧
    (∀ u, inc.p2 = some u →
      MergesPerContract gs.p2 u (update_internal_game_state gs inc).p2) := by
  refine ⟨fun h => ?_, fun u hu => ?_, fun h => ?_, fun u hu => ?_⟩
  · simp [update_internal_game_state, h]
  · simpa [update_internal_game_state, hu] using applyUpdate_merges gs.p1 u
  · simp [update_internal_game_state, h]
  · simpa [update_internal_game_state, hu] using applyUpdate_merges gs.p2 u

/-- Witness for C7: merging a partial update that only sets player 1's hp to
55 overwrites that attribute, keeps player 1's bullets, and leaves player 2
untouched. -/
theorem merge_overwrites_exactly_witness :
    (update_internal_game_state GameState.initial
        { p1 := some { hp := some 55 }, p2 := none }).p1.hp = 55 ∧
    (update_internal_game_state GameState.initial
        { p1 := some { hp := some 55 }, p2 := none }).p1.bullets
      = GameState.initial.p1.bullets ∧
    (update_internal_game_state GameState.initial
        { p1 := some { hp := some 55 }, p2 := none }).p2 = GameState.initial.p2 := by
  have h := merge_overwrites_exactly GameState.initial
    { p1 := some { hp := some 55 }, p2 := none }
  have hc := h.2.1 { hp := some 55 } rfl
  exact ⟨hc.2.1 55 rfl, hc.2.2.1 rfl, h.2.2.1 rfl⟩

/-! ### C9: monotonicity of the deaths counter -/

/-- The action dispatch never changes the actor's deaths counter. -/
theorem dispatch_fst_deaths (p : PlayerState) (a : String) (hit : Bool) :
    (dispatch p a hit).1.deaths = p.deaths := by
  unfold dispatch
  split_ifs <;> rfl

/-- HP deduction and respawn never decrease the opponent's deaths counter. -/
theorem applyHp_deaths (opp : PlayerState) (d : Int) :
    opp.deaths ≤ (applyHp opp d).deaths := by
  rw [applyHp_eq]
  split_ifs <;> simp [respawn]

/-- C9 (amended): no action resolution ever decreases either player's deaths
counter, and a state merge preserves a player's deaths counter whenever the
incoming partial data omits the `deaths` attribute; an incoming update that
carries `deaths` overwrites it with the sent value, which may be lower. -/
theorem deaths_monotone (p opp : PlayerState) (a : String) (hit : Bool)
    (gs : GameState) (inc : GameStateUpdate) :
    p.deaths ≤ (resolvePair p opp a hit).1.deaths ∧
    opp.deaths ≤ (resolvePair p opp a hit).2.deaths ∧
    ((∀ u, inc.p1 = some u → u.deaths = none) →
      (update_internal_game_state gs inc).p1.deaths = gs.p1.deaths) ∧
    ((∀ u, inc.p2 = some u → u.deaths = none) →
      (update_internal_game_state gs inc).p2.deaths = gs.p2.deaths) := by
  refine ⟨?_, ?_, ?_, ?_⟩
  · rw [resolvePair_eq, dispatch_fst_deaths]
  · have hd := (absorb_fst_fields opp ((dispatch p a hit).2 + rainDamage p)).2.2.2.1
    calc opp.deaths
        = (absorb opp ((dispatch p a hit).2 + rainDamage p)).1.deaths := hd.symm
      _ ≤ (resolvePair p opp a hit).2.deaths := by
          rw [resolvePair_eq]
          exact applyHp_deaths _ _
  · intro h
    cases hinc : inc.p1 with
    | none => simp [update_internal_game_state, hinc]
    | some u =>
        have hu := h u hinc
        simp [update_internal_game_state, hinc, PlayerState.applyUpdate, hu]
  · intro h
    cases hinc : inc.p2 with
    | none => simp [update_internal_game_state, hinc]
    | some u =>
        have hu := h u hinc
        simp [update_internal_game_state, hinc, PlayerState.applyUpdate, hu]

/-- Witness for C9 (amended): a basket strike that kills the opponent raises
their deaths from 0 to 1, and a merge whose partial update omits `deaths`
keeps player 1's counter. -/
theorem deaths_monotone_witness :
    PlayerState.initial.deaths
      ≤ (resolvePair { PlayerState.initial with opponent_visible := true }
          { PlayerState.initial with hp := 5 } "basket" false).1.deaths ∧
    ({ PlayerState.initial with hp := 5 } : PlayerState).deaths
      ≤ (resolvePair { PlayerState.initial with opponent_visible := true }
          { PlayerState.initial with hp := 5 } "basket" false).2.deaths ∧
    (update_internal_game_state GameState.initial
        { p1 := some { hp := some 55 }, p2 := none }).p1.deaths
      = GameState.initial.p1.deaths := by
  have h := deaths_monotone { PlayerState.initial with opponent_visible := true }
    { PlayerState.initial with hp := 5 } "basket" false GameState.initial
    { p1 := some { hp := some 55 }, p2 := none }
  refine ⟨h.1, h.2.1, h.2.2.1 ?_⟩
  intro u hu
  cases hu
  rfl

/-- Counterexample for C9 as stated: a state merge that carries
`deaths = 0` for a player who already died once decreases the counter. -/
theorem deaths_monotone_counterexample :
    (update_internal_game_state
        { p1 := { PlayerState.initial with deaths := 1 }, p2 := PlayerState.initial }
        { p1 := some { deaths := some 0 }, p2 := none }).p1.deaths
      < ({ p1 := { PlayerState.initial with deaths := 1 }, p2 := PlayerState.initial } : GameState).p1.deaths := by
  decide

end GameEngine

namespace GameEngine

/-! ### C3: message routing and publication -/

/-- C3 (amended): every inbound event merges the partial `game_state` first;
then exactly one route fires. When the `action` flag is true and the player
id is valid (1 or 2), the action is resolved and one publication goes to
each of the evaluation sink and the broadcast sink; with `action` false and
`update` true, the merged state is published to the broadcast sink only and
no action is resolved; with both flags false nothing is published. The
`action` route takes precedence regardless of `update`. An `action` event
with any other player id errors after the merge and publishes nothing. -/
theorem message_routing (gs : GameState) (e : InboundEvent)
    (hid : e.action = true → e.player_id = 1 ∨ e.player_id = 2) :
    (e.action = true →
      ∃ gs2, perform_action (update_internal_game_state gs e.game_state)
          e.player_id e.action_type e.hit = some gs2 ∧
        process_message gs e = some (gs2,
          [{ sink := Sink.evalServer, game_state := gs2,
             player_id := some e.player_id, action := some e.action_type },
           { sink := Sink.broadcast, game_state := gs2,
             player_id := some e.player_id, action := some e.action_type }])) ∧
    (e.action = false → e.update = true →
      process_message gs e = some (update_internal_game_state gs e.game_state,
        [{ sink := Sink.broadcast,
           game_state := update_internal_game_state gs e.game_state,
           player_id := none, action := none }])) ∧
    (e.action = false → e.update = false →
      process_message gs e = some (update_internal_game_state gs e.game_state, [])) := by
  refine ⟨fun ha => ?_, fun ha hu => ?_, fun ha hu => ?_⟩
  · obtain ⟨gs2, hgs2⟩ := perform_action_some
      (update_internal_game_state gs e.game_state) e.player_id e.action_type
      e.hit (hid ha)
    refine ⟨gs2, hgs2, ?_⟩
    unfold process_message
    rw [ha]
    simp [hgs2]
  · unfold process_message
    rw [ha, hu]
    simp
  · unfold process_message
    rw [ha, hu]
    simp

/-- Witness for C3 (amended): a logout action event for player 1 resolves
and publishes the snapshot to both sinks. -/
theorem message_routing_witness :
    ∃ gs2, perform_action
        (update_internal_game_state GameState.initial
          ({ action := true, player_id := 1, action_type := "logout" } : InboundEvent).game_state)
        1 "logout" false = some gs2 ∧
      process_message GameState.initial
          { action := true, player_id := 1, action_type := "logout" } = some (gs2,
        [{ sink := Sink.evalServer, game_state := gs2,
           player_id := some 1, action := some "logout" },
         { sink := Sink.broadcast, game_state := gs2,
           player_id := some 1, action := some "logout" }]) :=
  (message_routing GameState.initial
    { action := true, player_id := 1, action_type := "logout" }
    (fun _ => Or.inl rfl)).1 rfl

/-- Counterexample for C3 as stated: an event with `action = true` but
player id 3 raises `KeyError` after the merge, so the action is not
resolved and no publication reaches either sink. -/
theorem message_routing_counterexample :
    ({ action := true, player_id := 3 } : InboundEvent).action = true ∧
    process_message GameState.initial { action := true, player_id := 3 } = none := by
  constructor
  · rfl
  · rfl

end GameEngine
